import Mathlib

/-!
# The `/convert` job pipeline of `server.js`

A shallow embedding of the conversion endpoint (`app.post("/convert", ...)`,
`server.js` lines 89-150) together with the `multer` configuration in front of it
(lines 37-44).  The filesystem, the history store, the spawned commands, the
console and the pending timers are explicit components of a `State`; everything
the handler cannot decide by itself (the clock, the external converter, the
outcome of `save`, the outcome of the transfer) is supplied by an `Env`.
-/

namespace PdfToDoc

set_option maxRecDepth 20000

/-! ## Paths and the filesystem -/

/-- The three directories the program names: `__dirname`, `UPLOAD_DIR`, `CONVERT_DIR`. -/
inductive Dir
  | root
  | uploads
  | converted
deriving DecidableEq, Repr

/-- A file path: a directory and a last portion without separators. -/
structure Path where
  dir : Dir
  base : String
deriving DecidableEq, Repr

/-- File contents, as a list of bytes. -/
abbrev Content := List Nat

/-- The filesystem: which paths hold a file, and its contents. -/
abbrev FS := Path → Option Content

/-- Source: `const UPLOAD_DIR = path.join(__dirname, "uploads")`. -/
def UPLOAD_DIR : Dir := Dir.uploads

/-- Source: `const CONVERT_DIR = path.join(__dirname, "converted")`. -/
def CONVERT_DIR : Dir := Dir.converted

/-- Source: `path.join(dir, name)` for a `name` without separators. -/
def join (d : Dir) (name : String) : Path := ⟨d, name⟩

/-- Source: `const CONVERT_SCRIPT = path.join(__dirname, "convert.py")`. -/
def CONVERT_SCRIPT : Path := join Dir.root "convert.py"

/-- Source: `const pythonPath`. -/
def pythonPath : String :=
  "C:\\Users\\~Akash~\\AppData\\Local\\Programs\\Python\\Python313\\python.exe"

/-- Source: `const libreOfficePath`. -/
def libreOfficePath : String := "C:\\Program Files\\LibreOffice\\program\\soffice.com"

/-- Source: `path.extname` on a last portion: from the last `.` to the end; empty when there is
no `.`, when the only `.` is the first character, or when the portion is `..`. -/
def extname (base : String) : String :=
  let cs := base.data
  let tail := (cs.reverse.takeWhile (fun c => c ≠ '.')).length
  if tail = cs.length then ""
  else
    let startDot := cs.length - tail - 1
    if startDot = 0 then ""
    else if cs = ['.', '.'] then ""
    else String.mk (cs.drop startDot)

/-- Source: `path.basename(p, suffix)` on the last portion of `p`. -/
def basename (base suffix : String) : String :=
  if 0 < suffix.length ∧ suffix.length ≤ base.length then
    if suffix = base then ""
    else if base.data.drop (base.length - suffix.length) = suffix.data then
      String.mk (base.data.take (base.length - suffix.length))
    else base
  else base

/-- Source: `fs.existsSync`. -/
def existsSync (fs : FS) (p : Path) : Bool := (fs p).isSome

/-- Source: `fs.unlinkSync`: removes the file; throws when there is none. -/
def unlinkSync (fs : FS) (p : Path) : Except String FS :=
  match fs p with
  | none => Except.error "ENOENT: no such file or directory, unlink"
  | some _ => Except.ok (fun q => if q = p then none else fs q)

/-- Source: `fs.renameSync`: moves the file, replacing the destination; throws when the source
is absent; renaming a file to itself changes nothing. -/
def renameSync (fs : FS) (src dst : Path) : Except String FS :=
  match fs src with
  | none => Except.error "ENOENT: no such file or directory, rename"
  | some c =>
    if src = dst then Except.ok fs
    else Except.ok (fun q => if q = dst then some c else if q = src then none else fs q)

/-! ## Requests, responses, records -/

/-- The value found at `req.body.toType`. -/
inductive Field
  | undefined
  | str (s : String)
  | other (tag : Nat)
deriving DecidableEq, Repr

/-- The fields of `req.file` the handler reads; `filename` is the name multer stored
the upload under, inside `UPLOAD_DIR`. -/
structure UploadedFile where
  originalname : String
  mimetype : String
  filename : String
deriving DecidableEq, Repr

/-- Source: `req.file.path`. -/
def UploadedFile.path (f : UploadedFile) : Path := join UPLOAD_DIR f.filename

/-- The request as the handler sees it, after multer. -/
structure Request where
  toType : Field
  file : Option UploadedFile
deriving DecidableEq, Repr

/-- What is sent back: a JSON body with a status, or a file transfer. -/
inductive Response
  | json (status : Nat) (body : List (String × String))
  | download (path : Path) (filename : String)
deriving DecidableEq, Repr

/-- The document handed to `new conversion(...)`. -/
structure Record where
  originalName : String
  convertedName : String
  fromType : String
  toType : String
  downloadUrl : String
  createdAt : Nat
deriving DecidableEq, Repr

/-- A callback registered with `setTimeout`: the deferred cleanup of two paths. -/
structure Timer where
  delay : Nat
  inputPath : Path
  outputPath : Path
deriving DecidableEq, Repr

/-- Everything the handler reads or changes. -/
structure State where
  fs : FS
  db : List Record
  saves : List Record
  execs : List String
  log : List String
  timers : List Timer
  res : Option Response

/-- What `exec` hands to its callback, and the filesystem the subprocess left behind. -/
structure ExecResult where
  err : Option String
  fs : FS

/-- The surroundings of one request. -/
structure Env where
  dirname : String
  sep : String
  now : Nat
  createdAt : Nat
  exec : String → FS → ExecResult
  save : Record → Option String
  downloadErr : Option String

/-- A path as the string spliced into commands. -/
def Path.str (e : Env) (p : Path) : String :=
  match p.dir with
  | Dir.root => e.dirname ++ e.sep ++ p.base
  | Dir.uploads => e.dirname ++ e.sep ++ "uploads" ++ e.sep ++ p.base
  | Dir.converted => e.dirname ++ e.sep ++ "converted" ++ e.sep ++ p.base

/-- A directory as the string spliced into commands. -/
def Dir.str (e : Env) : Dir → String
  | Dir.root => e.dirname
  | Dir.uploads => e.dirname ++ e.sep ++ "uploads"
  | Dir.converted => e.dirname ++ e.sep ++ "converted"

/-- Source: `res.status(..).json(..)` and `res.download(..)`: the response is recorded. -/
def State.respond (s : State) (r : Response) : State := { s with res := some r }

/-- Source: `console.log` / `console.error`. -/
def State.print (s : State) (line : String) : State := { s with log := s.log ++ [line] }

/-! ## The handler -/

/-- Source: `['pdf','docx'].includes(toType)`. -/
def includesType : Field → Bool
  | Field.str s => ["pdf", "docx"].contains s
  | _ => false

/-- Source: `const outputExt = toType === "pdf" ? "pdf" : "docx"`. -/
def outputExt (toType : String) : String := if toType = "pdf" then "pdf" else "docx"

/-- The template string `converted_<timestamp>.<outputExt>`. -/
def outputFileName (timestamp : Nat) (toType : String) : String :=
  "converted_" ++ toString timestamp ++ "." ++ outputExt toType

/-- Source: `const outputPath = path.join(CONVERT_DIR, outputFileName)`. -/
def outputPath (timestamp : Nat) (toType : String) : Path :=
  join CONVERT_DIR (outputFileName timestamp toType)

/-- Source: `const origName = path.basename(inputPath, path.extname(inputPath))`. -/
def origName (inputPath : Path) : String := basename inputPath.base (extname inputPath.base)

/-- Source: `const loOut = path.join(CONVERT_DIR, origName + ".pdf")`. -/
def loOut (inputPath : Path) : Path := join CONVERT_DIR (origName inputPath ++ ".pdf")

/-- The command line built at lines 100-106. -/
def cmd (e : Env) (toType : String) (inputPath outPath : Path) : String :=
  if toType = "docx" then
    "\"" ++ pythonPath ++ "\" \"" ++ CONVERT_SCRIPT.str e ++ "\" \"" ++ inputPath.str e
      ++ "\" \"" ++ outPath.str e ++ "\""
  else
    "\"" ++ libreOfficePath ++ "\" --headless /NoSplash --convert-to pdf --outdir \""
      ++ CONVERT_DIR.str e ++ "\" \"" ++ inputPath.str e ++ "\""

/-- The body of the `setTimeout` callback (lines 136-139): both unlinks inside one `try`. -/
def cleanup (inputPath outPath : Path) (s : State) : State :=
  match (if existsSync s.fs inputPath then unlinkSync s.fs inputPath else Except.ok s.fs) with
  | Except.error m => s.print ("Cleanup error: " ++ m)
  | Except.ok fs1 =>
    match (if existsSync fs1 outPath then unlinkSync fs1 outPath else Except.ok fs1) with
    | Except.error m => { s with fs := fs1 }.print ("Cleanup error: " ++ m)
    | Except.ok fs2 => { s with fs := fs2 }

/-- The callback of `res.download` (lines 134-142): the cleanup is scheduled first, then
a transport error is logged. -/
def downloadCallback (inputPath outPath : Path) (dErr : Option String) (s : State) : State :=
  let s1 := { s with timers := s.timers ++ [Timer.mk 5000 inputPath outPath] }
  match dErr with
  | some m => s1.print ("Download error: " ++ m)
  | none => s1

/-- The document built at lines 122-129. -/
def newRecord (e : Env) (file : UploadedFile) (toType : String) (outPath : Path) : Record :=
  { originalName := file.originalname
    convertedName := outPath.base
    fromType := file.mimetype
    toType := toType
    downloadUrl := "/downloads/" ++ outPath.base
    createdAt := e.createdAt }

/-- Lines 121-131: the save inside its own `try`; a throw is logged and dropped. -/
def saveRecord (e : Env) (r : Record) (s : State) : State :=
  match e.save r with
  | none => { s with saves := s.saves ++ [r], db := s.db ++ [r] }
  | some m => { s with saves := s.saves ++ [r] }.print ("DB save error: " ++ m)

/-- Lines 112-116: for `pdf`, the converter's own output name is moved to `outputPath`.
An exception here leaves the callback. -/
def locateAndRename (toType : String) (inputPath outPath : Path) (s : State) :
    Except String State :=
  if toType = "pdf" then
    if existsSync s.fs (loOut inputPath) then
      match renameSync s.fs (loOut inputPath) outPath with
      | Except.ok fs1 => Except.ok { s with fs := fs1 }
      | Except.error m => Except.error m
    else Except.ok s
  else Except.ok s

/-- The callback given to `exec` (lines 109-143). -/
def execCallback (e : Env) (file : UploadedFile) (toType : String) (inputPath outPath : Path)
    (err : Option String) (s : State) : State :=
  match err with
  | some message =>
    s.respond (Response.json 500 [("error", "Conversion failed"), ("details", message)])
  | none =>
    match locateAndRename toType inputPath outPath s with
    | Except.error _ => s
    | Except.ok s1 =>
      if ¬ existsSync s1.fs outPath then
        s1.respond (Response.json 500 [("error", "Output file not found")])
      else
        let s2 := saveRecord e (newRecord e file toType outPath) s1
        let s3 := s2.respond
          (Response.download outPath ("converted_" ++ file.originalname ++ "." ++ outputExt toType))
        downloadCallback inputPath outPath e.downloadErr s3

/-- The `catch` of the handler (lines 145-149). -/
def setupFailure (message : String) (inputPath : Path) (s : State) : State :=
  let s1 := s.print ("Conversion setup error: " ++ message)
  match (if existsSync s1.fs inputPath then unlinkSync s1.fs inputPath else Except.ok s1.fs) with
  | Except.error _ => s1
  | Except.ok fs1 =>
    { s1 with fs := fs1 }.respond (Response.json 500 [("error", "Conversion setup failed")])

/-- Lines 94-150, once `req.file` and `toType` have passed the two checks. -/
def runJob (e : Env) (file : UploadedFile) (toType : String) (s : State) : State :=
  let inputPath := file.path
  let timestamp := e.now
  let outPath := outputPath timestamp toType
  if toType = "docx" ∧ ¬ existsSync s.fs CONVERT_SCRIPT then
    setupFailure "Python conversion script missing" inputPath s
  else
    let c := cmd e toType inputPath outPath
    let s1 := s.print ("🔄 Executing: " ++ c)
    let r := e.exec c s1.fs
    let s2 := { s1 with fs := r.fs, execs := s1.execs ++ [c] }
    execCallback e file toType inputPath outPath r.err s2

/-- What `exec` returns for the command of this job, run on the filesystem of `s`. -/
def jobExec (e : Env) (file : UploadedFile) (toType : String) (s : State) : ExecResult :=
  e.exec (cmd e toType file.path (outputPath e.now toType)) s.fs

/-- The handler of `app.post("/convert", ...)` (lines 89-150). -/
def convert (e : Env) (req : Request) (s : State) : State :=
  match req.file with
  | none => s.respond (Response.json 400 [("error", "No file uploaded")])
  | some file =>
    if ¬ includesType req.toType then
      s.respond (Response.json 400 [("error", "Invalid type")])
    else
      match req.toType with
      | Field.str toType => runJob e file toType s
      | _ => s.respond (Response.json 400 [("error", "Invalid type")])

/-- The pending `setTimeout` callbacks run, in order. -/
def runTimers (s : State) : State :=
  s.timers.foldl (fun acc t => cleanup t.inputPath t.outputPath acc) { s with timers := [] }

/-! ## multer in front of the handler -/

/-- The file part of the multipart body. -/
structure FilePart where
  originalname : String
  mimetype : String
  content : Content

/-- The multipart body of a `POST /convert`. -/
structure Upload where
  toType : Field
  file : Option FilePart

/-- The `allowed` list of the `fileFilter` (line 41). -/
def allowed : List String :=
  ["application/pdf",
   "application/vnd.openxmlformats-officedocument.wordprocessingml.document",
   "application/msword"]

/-- Source: `fileFilter`: `cb(null, allowed.includes(file.mimetype))`. -/
def fileFilter (file : FilePart) : Bool := allowed.contains file.mimetype

/-- Source: `limits.fileSize`. -/
def fileSizeLimit : Nat := 50 * 1024 * 1024

/-- Source: `upload.single("file")` with `dest: UPLOAD_DIR`: an accepted file is written to
`UPLOAD_DIR` under the generated name `gen` before the handler runs; a filtered file is
skipped; a file over the limit is an error and nothing is kept. -/
def uploadSingle (gen : String) (u : Upload) (s : State) : Except String (Request × State) :=
  match u.file with
  | none => Except.ok (⟨u.toType, none⟩, s)
  | some part =>
    if ¬ fileFilter part then Except.ok (⟨u.toType, none⟩, s)
    else if fileSizeLimit < part.content.length then Except.error "LIMIT_FILE_SIZE"
    else
      let file : UploadedFile := ⟨part.originalname, part.mimetype, gen⟩
      Except.ok (⟨u.toType, some file⟩,
        { s with fs := fun q => if q = file.path then some part.content else s.fs q })

/-- The error middleware (lines 153-157). -/
def errorHandler (code : String) (s : State) : State :=
  if code = "LIMIT_FILE_SIZE" then s.respond (Response.json 400 [("error", "File too large")])
  else (s.print ("Unhandled error: " ++ code)).respond
    (Response.json 500 [("error", "Internal server error")])

/-- One `POST /convert`, from the multipart body to the response. -/
def postConvert (e : Env) (gen : String) (u : Upload) (s : State) : State :=
  match uploadSingle gen u s with
  | Except.error code => errorHandler code s
  | Except.ok (req, s1) => convert e req s1

/-- One request to `POST /convert` as Express routes it.  An error multer raises while it
reads the multipart body (a file under another field name, a malformed body) is passed to
the error middleware with its code; otherwise the parts go through `upload.single("file")`
and the handler. -/
def handlePost (e : Env) (gen : String) (parsed : Except String Upload) (s : State) : State :=
  match parsed with
  | Except.error code => errorHandler code s
  | Except.ok u => postConvert e gen u s

/-- The name multer gives a stored upload: hexadecimal digits only. -/
def isHexName (name : String) : Bool :=
  name.data.all (fun c => c.isDigit || ('a' ≤ c && c ≤ 'f'))

/-! ## Sample surroundings -/

/-- A converter that exits without error after writing `c` at `p`. -/
def toolWrites (p : Path) (c : Content) : String → FS → ExecResult :=
  fun _ fs => ⟨none, fun q => if q = p then some c else fs q⟩

/-- A converter that exits without error and writes nothing. -/
def toolSilent : String → FS → ExecResult := fun _ fs => ⟨none, fs⟩

/-- A converter that fails; the error message is the one `exec` builds, the command
followed by what the process wrote on its error stream. -/
def toolFails (stderr : String) : String → FS → ExecResult :=
  fun c fs => ⟨some ("Command failed: " ++ c ++ "\n" ++ stderr), fs⟩

/-- A deployment under `C:\app`, with the clock at a fixed reading. -/
def sampleEnv (tool : String → FS → ExecResult) (save : Record → Option String)
    (dErr : Option String) : Env :=
  { dirname := "C:\\app", sep := "\\", now := 1700000000000, createdAt := 1700000000250,
    exec := tool, save := save, downloadErr := dErr }

/-- A state with the conversion script installed and nothing else. -/
def sampleState : State :=
  { fs := fun p => if p = CONVERT_SCRIPT then some [35, 33] else none
    db := [], saves := [], execs := [], log := [], timers := [], res := none }

/-- A PDF stored by multer. -/
def samplePdf : UploadedFile :=
  ⟨"report.pdf", "application/pdf", "0a1b2c3d4e5f60718293a4b5c6d7e8f9"⟩

/-- Another upload with the same original name, stored under another name. -/
def samplePdfAgain : UploadedFile :=
  ⟨"report.pdf", "application/pdf", "00112233445566778899aabbccddeeff"⟩

/-- A Word document stored by multer. -/
def sampleDocx : UploadedFile :=
  ⟨"letter.docx", "application/vnd.openxmlformats-officedocument.wordprocessingml.document",
    "f9e8d7c6b5a4392817065f4e3d2c1b0a"⟩

/-- The state after multer stored `file` with contents `c`. -/
def withUpload (file : UploadedFile) (c : Content) (s : State) : State :=
  { s with fs := fun q => if q = file.path then some c else s.fs q }

/-- A state where the conversion script is missing: only the upload is on disk. -/
def scriptMissing (file : UploadedFile) (c : Content) : State :=
  { fs := fun q => if q = file.path then some c else none
    db := [], saves := [], execs := [], log := [], timers := [], res := none }

/-! ## How a job runs: the four outcomes -/

theorem convert_valid (e : Env) (file : UploadedFile) (toType : String) (s : State)
    (ht : toType = "pdf" ∨ toType = "docx") :
    convert e ⟨Field.str toType, some file⟩ s = runJob e file toType s := by
  rcases ht with h | h <;> subst h <;> simp [convert, includesType]

theorem locateAndRename_spec (toType : String) (inp out : Path) (s : State) :
    ∃ fs1, locateAndRename toType inp out s = Except.ok { s with fs := fs1 } ∧
      (toType = "pdf" → ∀ c, s.fs (loOut inp) = some c →
        fs1 out = some c ∧ (loOut inp ≠ out → fs1 (loOut inp) = none)) ∧
      ((toType ≠ "pdf" ∨ s.fs (loOut inp) = none) → fs1 = s.fs) := by
  unfold locateAndRename
  by_cases ht : toType = "pdf"
  · cases hlo : s.fs (loOut inp) with
    | none =>
      refine ⟨s.fs, ?_, ?_, ?_⟩
      · simp [ht, existsSync, hlo]
      · intro _ c hc; simp at hc
      · intro _; rfl
    | some c =>
      by_cases hne : loOut inp = out
      · subst hne
        refine ⟨s.fs, ?_, ?_, ?_⟩
        · simp [ht, existsSync, hlo, renameSync]
        · intro _ c1 hc
          exact ⟨hlo.trans hc, fun h => absurd rfl h⟩
        · intro h; rfl
      · refine ⟨fun q => if q = out then some c else if q = loOut inp then none else s.fs q,
          ?_, ?_, ?_⟩
        · simp [ht, existsSync, hlo, renameSync, hne]
        · intro _ c1 hc; simp at hc; subst hc
          exact ⟨by simp, fun _ => by simp [hne]⟩
        · intro h; rcases h with h | h
          · exact absurd ht h
          · simp at h
  · refine ⟨s.fs, ?_, ?_, ?_⟩
    · simp [ht]
    · intro h; exact absurd h ht
    · intro _; rfl


theorem fs_after_rename_exists (toType : String) (inp out : Path) (fs0 fs1 : FS)
    (hpdf : toType = "pdf" → ∀ c, fs0 (loOut inp) = some c →
        fs1 out = some c ∧ (loOut inp ≠ out → fs1 (loOut inp) = none))
    (hsame : (toType ≠ "pdf" ∨ fs0 (loOut inp) = none) → fs1 = fs0)
    (hout : existsSync fs0 out = true ∨ (toType = "pdf" ∧ existsSync fs0 (loOut inp) = true)) :
    existsSync fs1 out = true := by
  by_cases ht : toType = "pdf"
  · cases hlo : fs0 (loOut inp) with
    | some c => simp [existsSync, (hpdf ht c hlo).1]
    | none =>
      rw [hsame (Or.inr hlo)]
      rcases hout with h | ⟨_, h⟩
      · exact h
      · simp [existsSync, hlo] at h
  · rw [hsame (Or.inl ht)]
    rcases hout with h | ⟨h, _⟩
    · exact h
    · exact absurd h ht

theorem runJob_success (e : Env) (file : UploadedFile) (toType : String) (s : State)
    (hscript : toType = "docx" → existsSync s.fs CONVERT_SCRIPT = true)
    (hok : (jobExec e file toType s).err = none)
    (hout : existsSync (jobExec e file toType s).fs (outputPath e.now toType) = true ∨
      (toType = "pdf" ∧ existsSync (jobExec e file toType s).fs (loOut file.path) = true)) :
    ∃ fs1,
      (toType = "pdf" → ∀ c, (jobExec e file toType s).fs (loOut file.path) = some c →
        fs1 (outputPath e.now toType) = some c ∧
        (loOut file.path ≠ outputPath e.now toType → fs1 (loOut file.path) = none)) ∧
      ((toType ≠ "pdf" ∨ (jobExec e file toType s).fs (loOut file.path) = none) →
        fs1 = (jobExec e file toType s).fs) ∧
      (runJob e file toType s).fs = fs1 ∧
      (runJob e file toType s).saves
        = s.saves ++ [newRecord e file toType (outputPath e.now toType)] ∧
      (runJob e file toType s).db
        = (if e.save (newRecord e file toType (outputPath e.now toType)) = none
            then s.db ++ [newRecord e file toType (outputPath e.now toType)] else s.db) ∧
      (runJob e file toType s).timers
        = s.timers ++ [Timer.mk 5000 file.path (outputPath e.now toType)] ∧
      (runJob e file toType s).execs
        = s.execs ++ [cmd e toType file.path (outputPath e.now toType)] ∧
      (runJob e file toType s).res
        = some (Response.download (outputPath e.now toType)
            ("converted_" ++ file.originalname ++ "." ++ outputExt toType)) := by
  have hcond : ¬ (toType = "docx" ∧ ¬ existsSync s.fs CONVERT_SCRIPT = true) := by
    rintro ⟨h1, h2⟩; exact h2 (hscript h1)
  obtain ⟨fs1, hlr, hpdf, hsame⟩ := locateAndRename_spec toType file.path
    (outputPath e.now toType)
    { (s.print ("🔄 Executing: " ++ cmd e toType file.path (outputPath e.now toType))) with
      fs := (jobExec e file toType s).fs
      execs := s.execs ++ [cmd e toType file.path (outputPath e.now toType)] }
  have hex := fs_after_rename_exists toType file.path (outputPath e.now toType) _ fs1 hpdf hsame hout
  refine ⟨fs1, hpdf, hsame, ?_⟩
  unfold jobExec at hok hlr
  simp only [State.print] at hlr
  simp only [runJob, hcond, if_false, State.print, execCallback, hok, hlr, hex]
  cases hs : e.save (newRecord e file toType (outputPath e.now toType)) <;>
    cases hd : e.downloadErr <;>
    simp [saveRecord, downloadCallback, State.respond, State.print, hs, hd]

theorem runJob_setup_failure (e : Env) (file : UploadedFile) (toType : String) (s : State)
    (ht : toType = "docx") (hs : existsSync s.fs CONVERT_SCRIPT = false) :
    (runJob e file toType s).res
        = some (Response.json 500 [("error", "Conversion setup failed")]) ∧
      (runJob e file toType s).saves = s.saves ∧
      (runJob e file toType s).db = s.db ∧
      (runJob e file toType s).execs = s.execs ∧
      (runJob e file toType s).timers = s.timers ∧
      (runJob e file toType s).fs file.path = none ∧
      ∀ q, q ≠ file.path → (runJob e file toType s).fs q = s.fs q := by
  have hcond : toType = "docx" ∧ ¬ existsSync s.fs CONVERT_SCRIPT = true := ⟨ht, by simp [hs]⟩
  simp only [runJob, hcond, if_true, setupFailure, State.print]
  cases hin : s.fs file.path with
  | none => simp [existsSync, hin, State.respond]
  | some c =>
    simp only [existsSync, hin, unlinkSync, Option.isSome_some, if_true, State.respond]
    refine ⟨rfl, rfl, rfl, rfl, rfl, by simp, ?_⟩
    intro q hq
    simp [hq]

theorem runJob_exec_error (e : Env) (file : UploadedFile) (toType : String) (s : State)
    (message : String)
    (hscript : toType = "docx" → existsSync s.fs CONVERT_SCRIPT = true)
    (herr : (jobExec e file toType s).err = some message) :
    (runJob e file toType s).res
        = some (Response.json 500 [("error", "Conversion failed"), ("details", message)]) ∧
      (runJob e file toType s).saves = s.saves ∧
      (runJob e file toType s).db = s.db ∧
      (runJob e file toType s).execs
        = s.execs ++ [cmd e toType file.path (outputPath e.now toType)] ∧
      (runJob e file toType s).timers = s.timers ∧
      (runJob e file toType s).fs = (jobExec e file toType s).fs := by
  have hcond : ¬ (toType = "docx" ∧ ¬ existsSync s.fs CONVERT_SCRIPT = true) := by
    rintro ⟨h1, h2⟩; exact h2 (hscript h1)
  unfold jobExec at herr
  simp only [runJob, hcond, if_false, State.print, execCallback, herr, State.respond, jobExec]
  simp

theorem runJob_output_missing (e : Env) (file : UploadedFile) (toType : String) (s : State)
    (hscript : toType = "docx" → existsSync s.fs CONVERT_SCRIPT = true)
    (hok : (jobExec e file toType s).err = none)
    (hout : (jobExec e file toType s).fs (outputPath e.now toType) = none)
    (hlo : toType = "pdf" → (jobExec e file toType s).fs (loOut file.path) = none) :
    (runJob e file toType s).res
        = some (Response.json 500 [("error", "Output file not found")]) ∧
      (runJob e file toType s).saves = s.saves ∧
      (runJob e file toType s).db = s.db ∧
      (runJob e file toType s).execs
        = s.execs ++ [cmd e toType file.path (outputPath e.now toType)] ∧
      (runJob e file toType s).timers = s.timers ∧
      (runJob e file toType s).fs = (jobExec e file toType s).fs := by
  have hcond : ¬ (toType = "docx" ∧ ¬ existsSync s.fs CONVERT_SCRIPT = true) := by
    rintro ⟨h1, h2⟩; exact h2 (hscript h1)
  obtain ⟨fs1, hlr, -, hsame⟩ := locateAndRename_spec toType file.path
    (outputPath e.now toType)
    { (s.print ("🔄 Executing: " ++ cmd e toType file.path (outputPath e.now toType))) with
      fs := (jobExec e file toType s).fs
      execs := s.execs ++ [cmd e toType file.path (outputPath e.now toType)] }
  have hfs : fs1 = (jobExec e file toType s).fs := by
    apply hsame
    by_cases ht : toType = "pdf"
    · exact Or.inr (hlo ht)
    · exact Or.inl ht
  subst hfs
  unfold jobExec at hok hlr hout
  simp only [State.print] at hlr
  simp only [runJob, hcond, if_false, State.print, execCallback, hok, hlr, State.respond,
    jobExec]
  simp [existsSync, hout]

/-! ## The deferred cleanup -/

theorem guarded_unlink (fs : FS) (p : Path) :
    (if existsSync fs p = true then unlinkSync fs p else Except.ok fs)
      = Except.ok (fun q => if q = p then none else fs q) := by
  cases h : fs p with
  | none =>
    simp only [existsSync, h, Option.isSome_none, Bool.false_eq_true, if_false]
    congr 1
    funext q
    by_cases hq : q = p
    · simp [hq, h]
    · simp [hq]
  | some c => simp [existsSync, h, unlinkSync]

theorem cleanup_eq (a b : Path) (s : State) :
    cleanup a b s
      = { s with fs := fun q => if q = b then none else if q = a then none else s.fs q } := by
  unfold cleanup
  rw [guarded_unlink s.fs a]
  simp only []
  rw [guarded_unlink _ b]

theorem cleanup_fields (a b : Path) (s : State) :
    (cleanup a b s).log = s.log ∧ (cleanup a b s).db = s.db ∧ (cleanup a b s).saves = s.saves ∧
      (cleanup a b s).res = s.res ∧ (cleanup a b s).execs = s.execs ∧
      (cleanup a b s).fs a = none ∧ (cleanup a b s).fs b = none ∧
      ∀ p, s.fs p = none → (cleanup a b s).fs p = none := by
  rw [cleanup_eq]
  refine ⟨rfl, rfl, rfl, rfl, rfl, by simp, by simp, ?_⟩
  intro p hp
  by_cases h1 : p = b <;> by_cases h2 : p = a <;> simp [h1, h2, hp]

theorem foldl_cleanup_keeps (ts : List Timer) (acc : State) :
    ((ts.foldl (fun st t => cleanup t.inputPath t.outputPath st) acc).log = acc.log ∧
      (ts.foldl (fun st t => cleanup t.inputPath t.outputPath st) acc).saves = acc.saves ∧
      (ts.foldl (fun st t => cleanup t.inputPath t.outputPath st) acc).db = acc.db ∧
      (ts.foldl (fun st t => cleanup t.inputPath t.outputPath st) acc).res = acc.res) ∧
      ∀ p, acc.fs p = none →
        (ts.foldl (fun st t => cleanup t.inputPath t.outputPath st) acc).fs p = none := by
  induction ts generalizing acc with
  | nil => simp
  | cons t ts ih =>
    obtain ⟨hl, hd, hs, hr, -, -, -, hp⟩ := cleanup_fields t.inputPath t.outputPath acc
    obtain ⟨⟨h1, h2, h3, h4⟩, h5⟩ := ih (cleanup t.inputPath t.outputPath acc)
    simp only [List.foldl_cons]
    exact ⟨⟨h1.trans hl, h2.trans hs, h3.trans hd, h4.trans hr⟩, fun p hpn => h5 p (hp p hpn)⟩

theorem foldl_cleanup_removes (ts : List Timer) (t : Timer) (ht : t ∈ ts) (acc : State) :
    (ts.foldl (fun st t => cleanup t.inputPath t.outputPath st) acc).fs t.inputPath = none ∧
      (ts.foldl (fun st t => cleanup t.inputPath t.outputPath st) acc).fs t.outputPath = none := by
  induction ts generalizing acc with
  | nil => simp at ht
  | cons u ts ih =>
    simp only [List.foldl_cons]
    rcases List.mem_cons.mp ht with h | h
    · subst h
      obtain ⟨-, -, -, -, -, ha, hb, -⟩ := cleanup_fields t.inputPath t.outputPath acc
      exact ⟨(foldl_cleanup_keeps ts _).2 _ ha, (foldl_cleanup_keeps ts _).2 _ hb⟩
    · exact ih h _

theorem deliver_fields (e : Env) (r : Record) (s : State) (a b : Path) (x : Response) :
    (downloadCallback a b e.downloadErr ((saveRecord e r s).respond x)).res = some x ∧
      (downloadCallback a b e.downloadErr ((saveRecord e r s).respond x)).timers
        = s.timers ++ [Timer.mk 5000 a b] ∧
      (downloadCallback a b e.downloadErr ((saveRecord e r s).respond x)).fs = s.fs ∧
      (downloadCallback a b e.downloadErr ((saveRecord e r s).respond x)).execs = s.execs := by
  cases hs : e.save r <;> cases hd : e.downloadErr <;>
    simp [saveRecord, downloadCallback, State.respond, State.print, hs, hd]

theorem runJob_save_irrelevant (e : Env) (save2 : Record → Option String)
    (file : UploadedFile) (toType : String) (s : State) :
    (runJob { e with save := save2 } file toType s).res = (runJob e file toType s).res ∧
      (runJob { e with save := save2 } file toType s).timers = (runJob e file toType s).timers ∧
      (runJob { e with save := save2 } file toType s).fs = (runJob e file toType s).fs ∧
      (runJob { e with save := save2 } file toType s).execs = (runJob e file toType s).execs := by
  by_cases hcond : toType = "docx" ∧ ¬ existsSync s.fs CONVERT_SCRIPT = true
  · simp only [runJob, hcond, and_self, if_true]
    exact ⟨rfl, rfl, rfl, rfl⟩
  · have hcmd : cmd { e with save := save2 } toType file.path (outputPath e.now toType)
        = cmd e toType file.path (outputPath e.now toType) := rfl
    simp only [runJob, hcond, if_false, State.print, hcmd, execCallback]
    cases herr : (e.exec (cmd e toType file.path (outputPath e.now toType)) s.fs).err with
    | some m => exact ⟨rfl, rfl, rfl, rfl⟩
    | none =>
      simp only []
      obtain ⟨fs1, hlr, -, -⟩ := locateAndRename_spec toType file.path
        (outputPath e.now toType)
        { (s.print ("🔄 Executing: " ++ cmd e toType file.path (outputPath e.now toType))) with
          fs := (e.exec (cmd e toType file.path (outputPath e.now toType)) s.fs).fs
          execs := s.execs ++ [cmd e toType file.path (outputPath e.now toType)] }
      simp only [State.print] at hlr
      rw [hlr]
      simp only []
      by_cases hex : existsSync fs1 (outputPath e.now toType) = true
      · simp only [hex, not_true_eq_false, if_false]
        have h1 := deliver_fields e (newRecord e file toType (outputPath e.now toType))
          { (s.print ("🔄 Executing: " ++ cmd e toType file.path (outputPath e.now toType))) with
            fs := fs1
            execs := s.execs ++ [cmd e toType file.path (outputPath e.now toType)] }
          file.path (outputPath e.now toType)
          (Response.download (outputPath e.now toType)
            ("converted_" ++ file.originalname ++ "." ++ outputExt toType))
        have h2 := deliver_fields { e with save := save2 }
          (newRecord e file toType (outputPath e.now toType))
          { (s.print ("🔄 Executing: " ++ cmd e toType file.path (outputPath e.now toType))) with
            fs := fs1
            execs := s.execs ++ [cmd e toType file.path (outputPath e.now toType)] }
          file.path (outputPath e.now toType)
          (Response.download (outputPath e.now toType)
            ("converted_" ++ file.originalname ++ "." ++ outputExt toType))
        simp only [State.print] at h1 h2
        exact ⟨h2.1.trans h1.1.symm, h2.2.1.trans h1.2.1.symm, h2.2.2.1.trans h1.2.2.1.symm,
          h2.2.2.2.trans h1.2.2.2.symm⟩
      · simp only [hex, not_false_eq_true, if_true]
        exact ⟨rfl, rfl, rfl, rfl⟩

/-! ## Decimal timestamps and file names -/

theorem toDigitsCore_acc (fuel n : Nat) (ds : List Char) :
    Nat.toDigitsCore 10 fuel n ds = Nat.toDigitsCore 10 fuel n [] ++ ds := by
  induction fuel generalizing n ds with
  | zero => simp [Nat.toDigitsCore]
  | succ f ih =>
    simp only [Nat.toDigitsCore]
    split
    · simp
    · rw [ih (n / 10) (Nat.digitChar (n % 10) :: ds), ih (n / 10) [Nat.digitChar (n % 10)]]
      simp

theorem toDigitsCore_fuel (fuel fuel2 n : Nat) (h1 : n < fuel) (h2 : n < fuel2) :
    Nat.toDigitsCore 10 fuel n [] = Nat.toDigitsCore 10 fuel2 n [] := by
  induction fuel generalizing fuel2 n with
  | zero => omega
  | succ f ih =>
    cases fuel2 with
    | zero => omega
    | succ f2 =>
      simp only [Nat.toDigitsCore]
      split
      · rfl
      · rename_i hne
        have hlt : n / 10 < n := Nat.div_lt_self (by omega) (by decide)
        rw [toDigitsCore_acc f, toDigitsCore_acc f2, ih f2 (n / 10) (by omega) (by omega)]

theorem toDigits_step (n : Nat) :
    Nat.toDigits 10 n = if n / 10 = 0 then [Nat.digitChar (n % 10)]
      else Nat.toDigits 10 (n / 10) ++ [Nat.digitChar (n % 10)] := by
  unfold Nat.toDigits
  conv_lhs => unfold Nat.toDigitsCore
  by_cases hne : n / 10 = 0
  · simp only [hne, if_true]
  · have hlt : n / 10 < n := Nat.div_lt_self (by omega) (by decide)
    simp only [hne, if_false]
    rw [toDigitsCore_acc n, toDigitsCore_fuel n (n / 10 + 1) (n / 10) hlt (by omega)]

theorem toDigits_ne_nil (n : Nat) : Nat.toDigits 10 n ≠ [] := by
  rw [toDigits_step]
  split <;> simp

theorem digitChar_inj : ∀ a, a < 10 → ∀ b, b < 10 →
    Nat.digitChar a = Nat.digitChar b → a = b := by
  decide

theorem digitChar_ne_dot : ∀ a, a < 10 → Nat.digitChar a ≠ '.' := by
  decide

theorem toDigits_inj (n : Nat) : ∀ m, Nat.toDigits 10 n = Nat.toDigits 10 m → n = m := by
  induction n using Nat.strong_induction_on with
  | _ n ih =>
    intro m h
    rw [toDigits_step n, toDigits_step m] at h
    by_cases hn : n / 10 = 0
    · by_cases hm : m / 10 = 0
      · simp only [hn, hm, if_true, List.cons.injEq, and_true] at h
        have := digitChar_inj (n % 10) (Nat.mod_lt _ (by decide)) (m % 10)
          (Nat.mod_lt _ (by decide)) h
        omega
      · simp only [hn, hm, if_true, if_false] at h
        have hl := congrArg List.length h
        have hpos : 0 < (Nat.toDigits 10 (m / 10)).length :=
          List.length_pos.mpr (toDigits_ne_nil _)
        simp only [List.length_append, List.length_singleton, List.length_cons,
          List.length_nil] at hl
        omega
    · by_cases hm : m / 10 = 0
      · simp only [hn, hm, if_true, if_false] at h
        have hl := congrArg List.length h
        have hpos : 0 < (Nat.toDigits 10 (n / 10)).length :=
          List.length_pos.mpr (toDigits_ne_nil _)
        simp only [List.length_append, List.length_singleton, List.length_cons,
          List.length_nil] at hl
        omega
      · simp only [hn, hm, if_false] at h
        obtain ⟨h1, h2⟩ := List.append_inj' h rfl
        have hlt : n / 10 < n := Nat.div_lt_self (by omega) (by decide)
        have hq := ih (n / 10) hlt (m / 10) h1
        simp only [List.cons.injEq, and_true] at h2
        have := digitChar_inj (n % 10) (Nat.mod_lt _ (by decide)) (m % 10)
          (Nat.mod_lt _ (by decide)) h2
        omega

theorem toDigits_no_dot (n : Nat) : '.' ∉ Nat.toDigits 10 n := by
  induction n using Nat.strong_induction_on with
  | _ n ih =>
    rw [toDigits_step n]
    have hd := digitChar_ne_dot (n % 10) (Nat.mod_lt _ (by decide))
    by_cases hn : n / 10 = 0
    · simp only [hn, if_true, List.mem_singleton]
      exact fun h => hd h.symm
    · have hlt : n / 10 < n := Nat.div_lt_self (by omega) (by decide)
      simp only [hn, if_false, List.mem_append, List.mem_singleton, not_or]
      exact ⟨ih (n / 10) hlt, fun h => hd h.symm⟩

theorem outputFileName_data (t : Nat) (ty : String) :
    (outputFileName t ty).data
      = "converted_".data ++ (Nat.toDigits 10 t ++ '.' :: (outputExt ty).data) := by
  simp [outputFileName]
  rfl

theorem outputExt_no_dot (ty : String) : '.' ∉ (outputExt ty).data := by
  unfold outputExt
  split <;> decide

theorem outputPath_inj (t1 t2 : Nat) (ty1 ty2 : String)
    (h : outputPath t1 ty1 = outputPath t2 ty2) : t1 = t2 ∧ outputExt ty1 = outputExt ty2 := by
  have hb : outputFileName t1 ty1 = outputFileName t2 ty2 := congrArg Path.base h
  have hd := congrArg String.data hb
  rw [outputFileName_data, outputFileName_data] at hd
  have hd2 := List.append_cancel_left hd
  obtain ⟨h1, -, h3⟩ :=
    (List.append_cons_inj_of_not_mem (toDigits_no_dot t1) (outputExt_no_dot ty1)).mp hd2
  exact ⟨toDigits_inj _ _ h1, String.ext h3⟩

theorem hex_no_dot (name : String) (h : isHexName name = true) :
    ∀ c ∈ name.data, c ≠ '.' := by
  intro c hc hdot
  have := (List.all_eq_true.mp h) c hc
  subst hdot
  revert this
  decide

theorem extname_of_hex (name : String) (h : isHexName name = true) : extname name = "" := by
  have hall : ∀ c ∈ name.data.reverse, decide (c ≠ '.') = true := by
    intro c hc
    have := hex_no_dot name h c (List.mem_reverse.mp hc)
    simpa using this
  have htw : name.data.reverse.takeWhile (fun c => decide (c ≠ '.')) = name.data.reverse :=
    List.takeWhile_eq_self_iff.mpr hall
  unfold extname
  simp only [htw, List.length_reverse, if_true]

theorem origName_of_hex (name : String) (h : isHexName name = true) :
    origName (join UPLOAD_DIR name) = name := by
  unfold origName
  simp only [join, extname_of_hex name h]
  simp [basename]

theorem loOut_ne_outputPath (file : UploadedFile) (h : isHexName file.filename = true)
    (t : Nat) (ty : String) : loOut file.path ≠ outputPath t ty := by
  intro heq
  have hb : origName file.path ++ ".pdf" = outputFileName t ty := congrArg Path.base heq
  rw [UploadedFile.path, origName_of_hex _ h] at hb
  have hd := congrArg String.data hb
  rw [outputFileName_data, String.data_append] at hd
  have hc : "converted_".data = ['c', 'o', 'n', 'v', 'e', 'r', 't', 'e', 'd', '_'] := rfl
  have hp : ".pdf".data = ['.', 'p', 'd', 'f'] := rfl
  rw [hc, hp] at hd
  have hall := List.all_eq_true.mp h
  cases hn : file.filename.data with
  | nil =>
    rw [hn] at hd
    simp at hd
  | cons a l =>
    cases l with
    | nil =>
      rw [hn] at hd
      simp at hd
    | cons b l2 =>
      rw [hn] at hd hall
      simp only [List.cons_append, List.cons.injEq] at hd
      have hb := hall b (by simp)
      rw [hd.2.1] at hb
      revert hb
      decide

/-! ## The claims -/

/-- C1: a request that carries a file and whose `toType` is neither `"pdf"` nor `"docx"`
(a missing `toType` included) is answered 400 with body `error: "Invalid type"`; no command
is spawned and no record is saved or stored. -/
theorem invalid_type_rejected_before_exec (e : Env) (file : UploadedFile) (t : Field)
    (s : State) (hpdf : t ≠ Field.str "pdf") (hdocx : t ≠ Field.str "docx") :
    (convert e ⟨t, some file⟩ s).res = some (Response.json 400 [("error", "Invalid type")]) ∧
      (convert e ⟨t, some file⟩ s).execs = s.execs ∧
      (convert e ⟨t, some file⟩ s).saves = s.saves ∧
      (convert e ⟨t, some file⟩ s).db = s.db := by
  have hinc : includesType t = false := by
    cases t with
    | undefined => rfl
    | other n => rfl
    | str x =>
      have h1 : x ≠ "pdf" := fun h => hpdf (by rw [h])
      have h2 : x ≠ "docx" := fun h => hdocx (by rw [h])
      simp [includesType, h1, h2]
  simp [convert, hinc, State.respond]

/-- Witness for C1: a stored PDF with no `toType` field at all. -/
theorem invalid_type_rejected_before_exec_witness :
    (convert (sampleEnv toolSilent (fun _ => none) none) ⟨Field.undefined, some samplePdf⟩
        (withUpload samplePdf [37, 80, 68, 70] sampleState)).res
        = some (Response.json 400 [("error", "Invalid type")]) ∧
      (convert (sampleEnv toolSilent (fun _ => none) none) ⟨Field.undefined, some samplePdf⟩
        (withUpload samplePdf [37, 80, 68, 70] sampleState)).execs = [] ∧
      (convert (sampleEnv toolSilent (fun _ => none) none) ⟨Field.undefined, some samplePdf⟩
        (withUpload samplePdf [37, 80, 68, 70] sampleState)).saves = [] ∧
      (convert (sampleEnv toolSilent (fun _ => none) none) ⟨Field.undefined, some samplePdf⟩
        (withUpload samplePdf [37, 80, 68, 70] sampleState)).db = [] :=
  invalid_type_rejected_before_exec (sampleEnv toolSilent (fun _ => none) none) samplePdf
    Field.undefined (withUpload samplePdf [37, 80, 68, 70] sampleState) (by decide) (by decide)

/-- C3: when the subprocess succeeds and its output exists (at `outputPath`, or for `pdf`
under the converter's own name), exactly one save is issued, with the record of this job,
and that record is stored when the save succeeds; one cleanup of the two paths is scheduled
whether or not the transfer reported an error; once the timers have run, on whatever the
filesystem holds by then, both `inputPath` and `outputPath` are absent and the cleanup has
logged no error. -/
theorem success_one_record_then_cleanup (e : Env) (file : UploadedFile) (toType : String)
    (s : State) (fsLater : FS) (ht : toType = "pdf" ∨ toType = "docx")
    (hscript : toType = "docx" → existsSync s.fs CONVERT_SCRIPT = true)
    (hok : (jobExec e file toType s).err = none)
    (hout : existsSync (jobExec e file toType s).fs (outputPath e.now toType) = true ∨
      (toType = "pdf" ∧ existsSync (jobExec e file toType s).fs (loOut file.path) = true)) :
    (convert e ⟨Field.str toType, some file⟩ s).saves
        = s.saves ++ [newRecord e file toType (outputPath e.now toType)] ∧
      (e.save (newRecord e file toType (outputPath e.now toType)) = none →
        (convert e ⟨Field.str toType, some file⟩ s).db
          = s.db ++ [newRecord e file toType (outputPath e.now toType)]) ∧
      (convert e ⟨Field.str toType, some file⟩ s).timers
        = s.timers ++ [Timer.mk 5000 file.path (outputPath e.now toType)] ∧
      (runTimers { convert e ⟨Field.str toType, some file⟩ s with fs := fsLater }).fs file.path
        = none ∧
      (runTimers { convert e ⟨Field.str toType, some file⟩ s with fs := fsLater }).fs
        (outputPath e.now toType) = none ∧
      (runTimers { convert e ⟨Field.str toType, some file⟩ s with fs := fsLater }).log
        = (convert e ⟨Field.str toType, some file⟩ s).log := by
  rw [convert_valid e file toType s ht]
  obtain ⟨fs1, -, -, -, hsaves, hdb, htimers, -, -⟩ := runJob_success e file toType s hscript hok hout
  have hmem : Timer.mk 5000 file.path (outputPath e.now toType)
      ∈ (runJob e file toType s).timers := by
    rw [htimers]; simp
  have hrm := foldl_cleanup_removes (runJob e file toType s).timers _ hmem
    { runJob e file toType s with fs := fsLater, timers := [] }
  have hkeep := foldl_cleanup_keeps (runJob e file toType s).timers
    { runJob e file toType s with fs := fsLater, timers := [] }
  refine ⟨hsaves, ?_, htimers, hrm.1, hrm.2, hkeep.1.1⟩
  intro hs
  rw [hdb, if_pos hs]

/-- Witness for C3: a PDF converted to `docx`, the transfer failing half way, and the
upload already gone when the timer fires. -/
theorem success_one_record_then_cleanup_witness :
    (convert (sampleEnv (toolWrites (outputPath 1700000000000 "docx") [80, 75])
        (fun _ => none) (some "EPIPE")) ⟨Field.str "docx", some samplePdf⟩
        (withUpload samplePdf [37, 80, 68, 70] sampleState)).saves.length = 1 ∧
      (runTimers { convert (sampleEnv (toolWrites (outputPath 1700000000000 "docx") [80, 75])
        (fun _ => none) (some "EPIPE")) ⟨Field.str "docx", some samplePdf⟩
        (withUpload samplePdf [37, 80, 68, 70] sampleState) with
          fs := fun q => if q = outputPath 1700000000000 "docx" then some [80, 75] else none }).fs
        (outputPath 1700000000000 "docx") = none :=
  have h := success_one_record_then_cleanup
    (sampleEnv (toolWrites (outputPath 1700000000000 "docx") [80, 75]) (fun _ => none)
      (some "EPIPE")) samplePdf "docx" (withUpload samplePdf [37, 80, 68, 70] sampleState)
    (fun q => if q = outputPath 1700000000000 "docx" then some [80, 75] else none)
    (Or.inr rfl) (by decide) (by decide) (by decide)
  ⟨by rw [h.1]; rfl, h.2.2.2.2.1⟩

/-- C8: when the subprocess succeeds and its output exists, `res.download` is called with
`outputPath` whatever `save` does: replacing the outcome of `save` by any other one changes
neither the response, nor the scheduled cleanup, nor the filesystem, nor the commands run. -/
theorem delivery_independent_of_save (e : Env) (save2 : Record → Option String)
    (file : UploadedFile) (toType : String) (s : State) (ht : toType = "pdf" ∨ toType = "docx")
    (hscript : toType = "docx" → existsSync s.fs CONVERT_SCRIPT = true)
    (hok : (jobExec e file toType s).err = none)
    (hout : existsSync (jobExec e file toType s).fs (outputPath e.now toType) = true ∨
      (toType = "pdf" ∧ existsSync (jobExec e file toType s).fs (loOut file.path) = true)) :
    (convert e ⟨Field.str toType, some file⟩ s).res
        = some (Response.download (outputPath e.now toType)
            ("converted_" ++ file.originalname ++ "." ++ outputExt toType)) ∧
      (convert { e with save := save2 } ⟨Field.str toType, some file⟩ s).res
        = (convert e ⟨Field.str toType, some file⟩ s).res ∧
      (convert { e with save := save2 } ⟨Field.str toType, some file⟩ s).timers
        = s.timers ++ [Timer.mk 5000 file.path (outputPath e.now toType)] ∧
      (convert e ⟨Field.str toType, some file⟩ s).timers
        = s.timers ++ [Timer.mk 5000 file.path (outputPath e.now toType)] ∧
      (convert { e with save := save2 } ⟨Field.str toType, some file⟩ s).fs
        = (convert e ⟨Field.str toType, some file⟩ s).fs := by
  rw [convert_valid e file toType s ht, convert_valid _ file toType s ht]
  obtain ⟨fs1, -, -, -, -, -, htimers, -, hres⟩ :=
    runJob_success e file toType s hscript hok hout
  obtain ⟨h1, h2, h3, -⟩ := runJob_save_irrelevant e save2 file toType s
  exact ⟨hres, h1, h2.trans htimers, htimers, h3⟩

/-- Witness for C8: the save throws, the `docx` is delivered all the same. -/
theorem delivery_independent_of_save_witness :
    (convert { sampleEnv (toolWrites (outputPath 1700000000000 "docx") [80, 75])
          (fun _ => none) none with save := fun _ => some "buffering timed out" }
        ⟨Field.str "docx", some samplePdf⟩ (withUpload samplePdf [37, 80, 68, 70] sampleState)).res
      = (convert (sampleEnv (toolWrites (outputPath 1700000000000 "docx") [80, 75])
          (fun _ => none) none)
        ⟨Field.str "docx", some samplePdf⟩
        (withUpload samplePdf [37, 80, 68, 70] sampleState)).res :=
  (delivery_independent_of_save
    (sampleEnv (toolWrites (outputPath 1700000000000 "docx") [80, 75]) (fun _ => none) none)
    (fun _ => some "buffering timed out") samplePdf "docx"
    (withUpload samplePdf [37, 80, 68, 70] sampleState)
    (Or.inr rfl) (by decide) (by decide) (by decide)).2.1

/-- C7, as stated, fails: for a PDF uploaded as `report.pdf` with `toType=docx`, the stored
`downloadUrl` ends in `converted_1700000000000.docx` while the file is returned to the caller
as `converted_report.pdf.docx`. -/
theorem download_name_differs_from_record :
    (convert (sampleEnv (toolWrites (outputPath 1700000000000 "docx") [80, 75])
        (fun _ => none) none) ⟨Field.str "docx", some samplePdf⟩
        (withUpload samplePdf [37, 80, 68, 70] sampleState)).saves
      = [{ originalName := "report.pdf", convertedName := "converted_1700000000000.docx",
           fromType := "application/pdf", toType := "docx",
           downloadUrl := "/downloads/converted_1700000000000.docx",
           createdAt := 1700000000250 }] ∧
    (convert (sampleEnv (toolWrites (outputPath 1700000000000 "docx") [80, 75])
        (fun _ => none) none) ⟨Field.str "docx", some samplePdf⟩
        (withUpload samplePdf [37, 80, 68, 70] sampleState)).res
      = some (Response.download (join CONVERT_DIR "converted_1700000000000.docx")
          "converted_report.pdf.docx") ∧
    "/downloads/" ++ "converted_report.pdf.docx" ≠ "/downloads/converted_1700000000000.docx" := by
  decide

/-- C7, amended: for every successful job the saved record carries the requested `toType`,
and its `convertedName` and the file name inside its `downloadUrl` are the name of
`outputPath`, `converted_<timestamp>.<ext>`; the caller receives that file under the name
`converted_<originalname>.<ext>`. -/
theorem record_names_output_path (e : Env) (file : UploadedFile) (toType : String)
    (s : State) (ht : toType = "pdf" ∨ toType = "docx")
    (hscript : toType = "docx" → existsSync s.fs CONVERT_SCRIPT = true)
    (hok : (jobExec e file toType s).err = none)
    (hout : existsSync (jobExec e file toType s).fs (outputPath e.now toType) = true ∨
      (toType = "pdf" ∧ existsSync (jobExec e file toType s).fs (loOut file.path) = true)) :
    (convert e ⟨Field.str toType, some file⟩ s).saves
        = s.saves ++ [newRecord e file toType (outputPath e.now toType)] ∧
      (newRecord e file toType (outputPath e.now toType)).toType = toType ∧
      (newRecord e file toType (outputPath e.now toType)).convertedName
        = "converted_" ++ toString e.now ++ "." ++ outputExt toType ∧
      (newRecord e file toType (outputPath e.now toType)).downloadUrl
        = "/downloads/" ++ ("converted_" ++ toString e.now ++ "." ++ outputExt toType) ∧
      (convert e ⟨Field.str toType, some file⟩ s).res
        = some (Response.download (join CONVERT_DIR
              ("converted_" ++ toString e.now ++ "." ++ outputExt toType))
            ("converted_" ++ file.originalname ++ "." ++ outputExt toType)) := by
  rw [convert_valid e file toType s ht]
  obtain ⟨fs1, -, -, -, hsaves, -, -, -, hres⟩ :=
    runJob_success e file toType s hscript hok hout
  exact ⟨hsaves, rfl, rfl, rfl, hres⟩

/-- Witness for the amended C7: a Word document converted to `pdf`, found under the
converter's own name. -/
theorem record_names_output_path_witness :
    (convert (sampleEnv (toolWrites (loOut sampleDocx.path) [37, 80, 68, 70])
        (fun _ => none) none) ⟨Field.str "pdf", some sampleDocx⟩
        (withUpload sampleDocx [80, 75] sampleState)).res
      = some (Response.download (join CONVERT_DIR
            ("converted_" ++ toString 1700000000000 ++ "." ++ outputExt "pdf"))
          ("converted_" ++ sampleDocx.originalname ++ "." ++ outputExt "pdf")) :=
  (record_names_output_path
    (sampleEnv (toolWrites (loOut sampleDocx.path) [37, 80, 68, 70]) (fun _ => none) none)
    sampleDocx "pdf" (withUpload sampleDocx [80, 75] sampleState)
    (Or.inl rfl) (by decide) (by decide) (by decide)).2.2.2.2

/-- C4, as stated, fails: a converter that exits without error and leaves an empty file at
`outputPath` makes the job succeed: the (empty) file is sent and a record is stored. -/
theorem empty_output_is_accepted :
    (toolWrites (outputPath 1700000000000 "docx") [] "" sampleState.fs).fs
        (outputPath 1700000000000 "docx") = some [] ∧
    (convert (sampleEnv (toolWrites (outputPath 1700000000000 "docx") [])
        (fun _ => none) none) ⟨Field.str "docx", some samplePdf⟩
        (withUpload samplePdf [37, 80, 68, 70] sampleState)).res
      = some (Response.download (outputPath 1700000000000 "docx") "converted_report.pdf.docx") ∧
    (convert (sampleEnv (toolWrites (outputPath 1700000000000 "docx") [])
        (fun _ => none) none) ⟨Field.str "docx", some samplePdf⟩
        (withUpload samplePdf [37, 80, 68, 70] sampleState)).db.length = 1 := by
  decide

/-- C4, amended: after a subprocess that reported success the output is checked for
existence only.  If `outputPath` is absent (and, for `pdf`, so is the converter's own output
name) the answer is 500 `Output file not found`, nothing is saved or stored and no cleanup is
scheduled; and whenever the handler has issued a save, `outputPath` holds a file, of whatever
size. -/
theorem output_checked_for_existence (e : Env) (file : UploadedFile) (toType : String)
    (s : State) (ht : toType = "pdf" ∨ toType = "docx")
    (hscript : toType = "docx" → existsSync s.fs CONVERT_SCRIPT = true)
    (hok : (jobExec e file toType s).err = none) :
    ((jobExec e file toType s).fs (outputPath e.now toType) = none →
      (toType = "pdf" → (jobExec e file toType s).fs (loOut file.path) = none) →
        (convert e ⟨Field.str toType, some file⟩ s).res
            = some (Response.json 500 [("error", "Output file not found")]) ∧
          (convert e ⟨Field.str toType, some file⟩ s).saves = s.saves ∧
          (convert e ⟨Field.str toType, some file⟩ s).db = s.db ∧
          (convert e ⟨Field.str toType, some file⟩ s).timers = s.timers) ∧
    ((convert e ⟨Field.str toType, some file⟩ s).saves ≠ s.saves →
      existsSync (convert e ⟨Field.str toType, some file⟩ s).fs (outputPath e.now toType)
        = true) := by
  rw [convert_valid e file toType s ht]
  constructor
  · intro hout hlo
    obtain ⟨h1, h2, h3, -, h5, -⟩ := runJob_output_missing e file toType s hscript hok hout hlo
    exact ⟨h1, h2, h3, h5⟩
  · intro hsaves
    by_cases hout : existsSync (jobExec e file toType s).fs (outputPath e.now toType) = true ∨
        (toType = "pdf" ∧ existsSync (jobExec e file toType s).fs (loOut file.path) = true)
    · obtain ⟨fs1, hpdf, hsame, hfs, -⟩ := runJob_success e file toType s hscript hok hout
      rw [hfs]
      exact fs_after_rename_exists toType file.path (outputPath e.now toType) _ fs1 hpdf hsame hout
    · exfalso
      apply hsaves
      have h1 : (jobExec e file toType s).fs (outputPath e.now toType) = none := by
        cases h : (jobExec e file toType s).fs (outputPath e.now toType) with
        | none => rfl
        | some c => exact absurd (Or.inl (by simp [existsSync, h])) hout
      have h2 : toType = "pdf" → (jobExec e file toType s).fs (loOut file.path) = none := by
        intro hp
        cases h : (jobExec e file toType s).fs (loOut file.path) with
        | none => rfl
        | some c => exact absurd (Or.inr ⟨hp, by simp [existsSync, h]⟩) hout
      exact (runJob_output_missing e file toType s hscript hok h1 h2).2.1

/-- Witness for the amended C4: the converter exits without error and writes nothing. -/
theorem output_checked_for_existence_witness :
    (convert (sampleEnv toolSilent (fun _ => none) none) ⟨Field.str "docx", some samplePdf⟩
        (withUpload samplePdf [37, 80, 68, 70] sampleState)).res
        = some (Response.json 500 [("error", "Output file not found")]) ∧
      (convert (sampleEnv toolSilent (fun _ => none) none) ⟨Field.str "docx", some samplePdf⟩
        (withUpload samplePdf [37, 80, 68, 70] sampleState)).saves
        = (withUpload samplePdf [37, 80, 68, 70] sampleState).saves ∧
      (convert (sampleEnv toolSilent (fun _ => none) none) ⟨Field.str "docx", some samplePdf⟩
        (withUpload samplePdf [37, 80, 68, 70] sampleState)).db
        = (withUpload samplePdf [37, 80, 68, 70] sampleState).db ∧
      (convert (sampleEnv toolSilent (fun _ => none) none) ⟨Field.str "docx", some samplePdf⟩
        (withUpload samplePdf [37, 80, 68, 70] sampleState)).timers
        = (withUpload samplePdf [37, 80, 68, 70] sampleState).timers :=
  (output_checked_for_existence (sampleEnv toolSilent (fun _ => none) none) samplePdf "docx"
    (withUpload samplePdf [37, 80, 68, 70] sampleState)
    (Or.inr rfl) (by decide) (by decide)).1 (by decide) (by decide)

/-- C5, as stated, fails: two runs that differ only in what the failed subprocess wrote on
its error stream get different bodies, and the body carries the command line with the path
of the upload and of the output. -/
theorem failure_body_carries_error_text :
    (convert (sampleEnv (toolFails "Traceback A") (fun _ => none) none)
        ⟨Field.str "docx", some samplePdf⟩
        (withUpload samplePdf [37, 80, 68, 70] sampleState)).res
      = some (Response.json 500 [("error", "Conversion failed"),
          ("details", "Command failed: " ++
            cmd (sampleEnv (toolFails "Traceback A") (fun _ => none) none) "docx"
              samplePdf.path (outputPath 1700000000000 "docx") ++ "\nTraceback A")]) ∧
    (convert (sampleEnv (toolFails "Traceback A") (fun _ => none) none)
        ⟨Field.str "docx", some samplePdf⟩
        (withUpload samplePdf [37, 80, 68, 70] sampleState)).res
      ≠ (convert (sampleEnv (toolFails "Traceback B") (fun _ => none) none)
        ⟨Field.str "docx", some samplePdf⟩
        (withUpload samplePdf [37, 80, 68, 70] sampleState)).res := by
  decide

/-- The JSON bodies of the handler itself: four fixed ones, or the body of a failed
invocation with the message of the `exec` error in `details`. -/
theorem convert_body_shape (e : Env) (req : Request) (s : State) (status : Nat)
    (body : List (String × String))
    (h : (convert e req s).res = some (Response.json status body)) :
    (status = 400 ∧ body = [("error", "No file uploaded")]) ∨
    (status = 400 ∧ body = [("error", "Invalid type")]) ∨
    (status = 500 ∧ body = [("error", "Conversion setup failed")]) ∨
    (status = 500 ∧ body = [("error", "Output file not found")]) ∨
    (status = 500 ∧ ∃ file toType message, req.file = some file ∧
      req.toType = Field.str toType ∧ (jobExec e file toType s).err = some message ∧
      body = [("error", "Conversion failed"), ("details", message)]) := by
  obtain ⟨t, f⟩ := req
  cases f with
  | none =>
    simp [convert, State.respond] at h
    exact Or.inl ⟨h.1.symm, h.2.symm⟩
  | some file =>
    by_cases hinc : includesType t = true
    · cases t with
      | undefined => simp [includesType] at hinc
      | other n => simp [includesType] at hinc
      | str toType =>
        have ht : toType = "pdf" ∨ toType = "docx" := by
          simpa [includesType] using hinc
        rw [convert_valid e file toType s ht] at h
        by_cases hscript : toType = "docx" → existsSync s.fs CONVERT_SCRIPT = true
        · cases herr : (jobExec e file toType s).err with
          | some message =>
            rw [(runJob_exec_error e file toType s message hscript herr).1] at h
            simp at h
            exact Or.inr (Or.inr (Or.inr (Or.inr
              ⟨h.1.symm, file, toType, message, rfl, rfl, herr, h.2.symm⟩)))
          | none =>
            by_cases hout :
                existsSync (jobExec e file toType s).fs (outputPath e.now toType) = true ∨
                (toType = "pdf" ∧
                  existsSync (jobExec e file toType s).fs (loOut file.path) = true)
            · obtain ⟨fs1, -, -, -, -, -, -, -, hres⟩ :=
                runJob_success e file toType s hscript herr hout
              rw [hres] at h
              simp at h
            · have h1 : (jobExec e file toType s).fs (outputPath e.now toType) = none := by
                cases h : (jobExec e file toType s).fs (outputPath e.now toType) with
                | none => rfl
                | some c => exact absurd (Or.inl (by simp [existsSync, h])) hout
              have h2 : toType = "pdf" →
                  (jobExec e file toType s).fs (loOut file.path) = none := by
                intro hp
                cases h : (jobExec e file toType s).fs (loOut file.path) with
                | none => rfl
                | some c => exact absurd (Or.inr ⟨hp, by simp [existsSync, h]⟩) hout
              rw [(runJob_output_missing e file toType s hscript herr h1 h2).1] at h
              simp at h
              exact Or.inr (Or.inr (Or.inr (Or.inl ⟨h.1.symm, h.2.symm⟩)))
        · have hd : toType = "docx" := by
            by_contra hne
            exact hscript (fun h => absurd h hne)
          have hs : existsSync s.fs CONVERT_SCRIPT = false := by
            cases hx : existsSync s.fs CONVERT_SCRIPT with
            | false => rfl
            | true => exact absurd (fun _ => hx) hscript
          rw [(runJob_setup_failure e file toType s hd hs).1] at h
          simp at h
          exact Or.inr (Or.inr (Or.inl ⟨h.1.symm, h.2.symm⟩))
    · simp [convert, hinc, State.respond] at h
      exact Or.inr (Or.inl ⟨h.1.symm, h.2.symm⟩)

/-- C5, amended: every JSON body sent in answer to a `POST /convert` is one of six fixed
bodies (no file, invalid type, file too large, internal server error, setup failure, output
not found), which do not depend on the command, the paths or any error text, or else it is
the body of a failed invocation: the fixed `error` field `Conversion failed` followed by a
`details` field that is the message of the error `exec` reported, verbatim. -/
theorem failure_body_shape (e : Env) (gen : String) (parsed : Except String Upload)
    (s : State) (status : Nat) (body : List (String × String))
    (h : (handlePost e gen parsed s).res = some (Response.json status body)) :
    (status = 400 ∧ body = [("error", "No file uploaded")]) ∨
    (status = 400 ∧ body = [("error", "Invalid type")]) ∨
    (status = 400 ∧ body = [("error", "File too large")]) ∨
    (status = 500 ∧ body = [("error", "Internal server error")]) ∨
    (status = 500 ∧ body = [("error", "Conversion setup failed")]) ∨
    (status = 500 ∧ body = [("error", "Output file not found")]) ∨
    (status = 500 ∧ ∃ u part toType message, parsed = Except.ok u ∧ u.file = some part ∧
      u.toType = Field.str toType ∧
      (jobExec e ⟨part.originalname, part.mimetype, gen⟩ toType
        (withUpload ⟨part.originalname, part.mimetype, gen⟩ part.content s)).err
        = some message ∧
      body = [("error", "Conversion failed"), ("details", message)]) := by
  have hconv : ∀ (req : Request) (s1 : State),
      (convert e req s1).res = some (Response.json status body) →
      (status = 400 ∧ body = [("error", "No file uploaded")]) ∨
      (status = 400 ∧ body = [("error", "Invalid type")]) ∨
      (status = 400 ∧ body = [("error", "File too large")]) ∨
      (status = 500 ∧ body = [("error", "Internal server error")]) ∨
      (status = 500 ∧ body = [("error", "Conversion setup failed")]) ∨
      (status = 500 ∧ body = [("error", "Output file not found")]) ∨
      (status = 500 ∧ ∃ file toType message, req.file = some file ∧
        req.toType = Field.str toType ∧ (jobExec e file toType s1).err = some message ∧
        body = [("error", "Conversion failed"), ("details", message)]) := by
    intro req s1 h1
    rcases convert_body_shape e req s1 status body h1 with h2 | h2 | h2 | h2 | h2
    · exact Or.inl h2
    · exact Or.inr (Or.inl h2)
    · exact Or.inr (Or.inr (Or.inr (Or.inr (Or.inl h2))))
    · exact Or.inr (Or.inr (Or.inr (Or.inr (Or.inr (Or.inl h2)))))
    · exact Or.inr (Or.inr (Or.inr (Or.inr (Or.inr (Or.inr h2)))))
  have herr : ∀ code, (errorHandler code s).res = some (Response.json status body) →
      (status = 400 ∧ body = [("error", "File too large")]) ∨
      (status = 500 ∧ body = [("error", "Internal server error")]) := by
    intro code h1
    unfold errorHandler at h1
    by_cases hc : code = "LIMIT_FILE_SIZE"
    · simp [hc, State.respond] at h1
      exact Or.inl ⟨h1.1.symm, h1.2.symm⟩
    · simp [hc, State.respond, State.print] at h1
      exact Or.inr ⟨h1.1.symm, h1.2.symm⟩
  cases parsed with
  | error code =>
    rcases herr code h with h2 | h2
    · exact Or.inr (Or.inr (Or.inl h2))
    · exact Or.inr (Or.inr (Or.inr (Or.inl h2)))
  | ok u =>
    simp only [handlePost, postConvert, uploadSingle] at h
    cases hf : u.file with
    | none =>
      simp only [hf] at h
      rcases hconv _ _ h with h2 | h2 | h2 | h2 | h2 | h2 | ⟨_, file, _, _, hfile, _⟩
      · exact Or.inl h2
      · exact Or.inr (Or.inl h2)
      · exact Or.inr (Or.inr (Or.inl h2))
      · exact Or.inr (Or.inr (Or.inr (Or.inl h2)))
      · exact Or.inr (Or.inr (Or.inr (Or.inr (Or.inl h2))))
      · exact Or.inr (Or.inr (Or.inr (Or.inr (Or.inr (Or.inl h2)))))
      · simp at hfile
    | some part =>
      simp only [hf] at h
      by_cases hflt : fileFilter part = true
      · by_cases hsize : fileSizeLimit < part.content.length
        · simp only [hflt, not_true_eq_false, if_false, hsize, if_true] at h
          rcases herr _ h with h2 | h2
          · exact Or.inr (Or.inr (Or.inl h2))
          · exact Or.inr (Or.inr (Or.inr (Or.inl h2)))
        · simp only [hflt, not_true_eq_false, if_false, hsize] at h
          rcases hconv _ _ h with h2 | h2 | h2 | h2 | h2 | h2 | ⟨hst, file, toType, m, hfile, hty, hm, hb⟩
          · exact Or.inl h2
          · exact Or.inr (Or.inl h2)
          · exact Or.inr (Or.inr (Or.inl h2))
          · exact Or.inr (Or.inr (Or.inr (Or.inl h2)))
          · exact Or.inr (Or.inr (Or.inr (Or.inr (Or.inl h2))))
          · exact Or.inr (Or.inr (Or.inr (Or.inr (Or.inr (Or.inl h2)))))
          · simp only [Option.some.injEq] at hfile
            subst hfile
            exact Or.inr (Or.inr (Or.inr (Or.inr (Or.inr (Or.inr
              ⟨hst, u, part, toType, m, rfl, hf, hty, hm, hb⟩)))))
      · simp only [hflt, not_false_eq_true, if_true] at h
        rcases hconv _ _ h with h2 | h2 | h2 | h2 | h2 | h2 | ⟨_, file, _, _, hfile, _⟩
        · exact Or.inl h2
        · exact Or.inr (Or.inl h2)
        · exact Or.inr (Or.inr (Or.inl h2))
        · exact Or.inr (Or.inr (Or.inr (Or.inl h2)))
        · exact Or.inr (Or.inr (Or.inr (Or.inr (Or.inl h2))))
        · exact Or.inr (Or.inr (Or.inr (Or.inr (Or.inr (Or.inl h2)))))
        · simp at hfile

/-- Witness for the amended C5: a PDF sent with `toType=docx` and a converter that fails;
the body is the failed-invocation one, with the command line in `details`. -/
theorem failure_body_shape_witness :
    (handlePost (sampleEnv (toolFails "Traceback A") (fun _ => none) none)
      "0a1b2c3d4e5f60718293a4b5c6d7e8f9"
      (Except.ok ⟨Field.str "docx", some ⟨"report.pdf", "application/pdf", [37, 80, 68, 70]⟩⟩)
      sampleState).res
      = some (Response.json 500
      [("error", "Conversion failed"),
        ("details", "Command failed: " ++
          cmd (sampleEnv (toolFails "Traceback A") (fun _ => none) none) "docx"
            samplePdf.path (outputPath 1700000000000 "docx") ++ "\nTraceback A")]) ∧
    ((500 = 400 ∧
      [("error", "Conversion failed"),
        ("details", "Command failed: " ++
          cmd (sampleEnv (toolFails "Traceback A") (fun _ => none) none) "docx"
            samplePdf.path (outputPath 1700000000000 "docx") ++ "\nTraceback A")]
        = [("error", "No file uploaded")]) ∨
     (500 = 400 ∧
      [("error", "Conversion failed"),
        ("details", "Command failed: " ++
          cmd (sampleEnv (toolFails "Traceback A") (fun _ => none) none) "docx"
            samplePdf.path (outputPath 1700000000000 "docx") ++ "\nTraceback A")]
        = [("error", "Invalid type")]) ∨
     (500 = 400 ∧
      [("error", "Conversion failed"),
        ("details", "Command failed: " ++
          cmd (sampleEnv (toolFails "Traceback A") (fun _ => none) none) "docx"
            samplePdf.path (outputPath 1700000000000 "docx") ++ "\nTraceback A")]
        = [("error", "File too large")]) ∨
     (500 = 500 ∧
      [("error", "Conversion failed"),
        ("details", "Command failed: " ++
          cmd (sampleEnv (toolFails "Traceback A") (fun _ => none) none) "docx"
            samplePdf.path (outputPath 1700000000000 "docx") ++ "\nTraceback A")]
        = [("error", "Internal server error")]) ∨
     (500 = 500 ∧
      [("error", "Conversion failed"),
        ("details", "Command failed: " ++
          cmd (sampleEnv (toolFails "Traceback A") (fun _ => none) none) "docx"
            samplePdf.path (outputPath 1700000000000 "docx") ++ "\nTraceback A")]
        = [("error", "Conversion setup failed")]) ∨
     (500 = 500 ∧
      [("error", "Conversion failed"),
        ("details", "Command failed: " ++
          cmd (sampleEnv (toolFails "Traceback A") (fun _ => none) none) "docx"
            samplePdf.path (outputPath 1700000000000 "docx") ++ "\nTraceback A")]
        = [("error", "Output file not found")]) ∨
     (500 = 500 ∧ ∃ u part toType message,
      (Except.ok ⟨Field.str "docx", some ⟨"report.pdf", "application/pdf", [37, 80, 68, 70]⟩⟩ :
        Except String Upload) = Except.ok u ∧ u.file = some part ∧
      u.toType = Field.str toType ∧
      (jobExec (sampleEnv (toolFails "Traceback A") (fun _ => none) none)
        ⟨part.originalname, part.mimetype, "0a1b2c3d4e5f60718293a4b5c6d7e8f9"⟩ toType
        (withUpload ⟨part.originalname, part.mimetype, "0a1b2c3d4e5f60718293a4b5c6d7e8f9"⟩
          part.content sampleState)).err = some message ∧
      [("error", "Conversion failed"),
        ("details", "Command failed: " ++
          cmd (sampleEnv (toolFails "Traceback A") (fun _ => none) none) "docx"
            samplePdf.path (outputPath 1700000000000 "docx") ++ "\nTraceback A")]
        = [("error", "Conversion failed"), ("details", message)])) :=
  ⟨by decide,
   failure_body_shape (sampleEnv (toolFails "Traceback A") (fun _ => none) none)
    "0a1b2c3d4e5f60718293a4b5c6d7e8f9"
    (Except.ok ⟨Field.str "docx", some ⟨"report.pdf", "application/pdf", [37, 80, 68, 70]⟩⟩)
    sampleState 500
    [("error", "Conversion failed"),
        ("details", "Command failed: " ++
          cmd (sampleEnv (toolFails "Traceback A") (fun _ => none) none) "docx"
            samplePdf.path (outputPath 1700000000000 "docx") ++ "\nTraceback A")]
    (by decide)⟩

/-- C2, on the code: after a failed invocation, and after an invocation that produced no
output, no record is saved and no cleanup is scheduled, so once every timer has run the
upload is still stored at `req.file.path`; the setup failure of the `catch` does remove it. -/
theorem failed_job_keeps_upload :
    (runTimers (convert (sampleEnv (toolFails "Traceback") (fun _ => none) none)
        ⟨Field.str "docx", some samplePdf⟩
        (withUpload samplePdf [37, 80, 68, 70] sampleState))).saves = [] ∧
    (convert (sampleEnv (toolFails "Traceback") (fun _ => none) none)
        ⟨Field.str "docx", some samplePdf⟩
        (withUpload samplePdf [37, 80, 68, 70] sampleState)).timers = [] ∧
    (runTimers (convert (sampleEnv (toolFails "Traceback") (fun _ => none) none)
        ⟨Field.str "docx", some samplePdf⟩
        (withUpload samplePdf [37, 80, 68, 70] sampleState))).fs samplePdf.path
      = some [37, 80, 68, 70] ∧
    (runTimers (convert (sampleEnv toolSilent (fun _ => none) none)
        ⟨Field.str "docx", some samplePdf⟩
        (withUpload samplePdf [37, 80, 68, 70] sampleState))).res
      = some (Response.json 500 [("error", "Output file not found")]) ∧
    (runTimers (convert (sampleEnv toolSilent (fun _ => none) none)
        ⟨Field.str "docx", some samplePdf⟩
        (withUpload samplePdf [37, 80, 68, 70] sampleState))).fs samplePdf.path
      = some [37, 80, 68, 70] ∧
    (convert (sampleEnv toolSilent (fun _ => none) none)
        ⟨Field.str "docx", some samplePdf⟩
        (scriptMissing samplePdf [37, 80, 68, 70])).fs samplePdf.path = none := by
  decide

/-- C9, on the code: a `POST /convert` with a PDF and `toType=xml`, arriving when both
directories are empty, is answered 400 `Invalid type`; nothing appears in the output
directory, but the upload multer stored is still in the intake directory afterwards. -/
theorem invalid_type_keeps_upload :
    sampleState.fs (join UPLOAD_DIR "0a1b2c3d4e5f60718293a4b5c6d7e8f9") = none ∧
    (runTimers (postConvert (sampleEnv toolSilent (fun _ => none) none)
        "0a1b2c3d4e5f60718293a4b5c6d7e8f9"
        ⟨Field.str "xml", some ⟨"report.pdf", "application/pdf", [37, 80, 68, 70]⟩⟩
        sampleState)).res = some (Response.json 400 [("error", "Invalid type")]) ∧
    (runTimers (postConvert (sampleEnv toolSilent (fun _ => none) none)
        "0a1b2c3d4e5f60718293a4b5c6d7e8f9"
        ⟨Field.str "xml", some ⟨"report.pdf", "application/pdf", [37, 80, 68, 70]⟩⟩
        sampleState)).fs (join UPLOAD_DIR "0a1b2c3d4e5f60718293a4b5c6d7e8f9")
      = some [37, 80, 68, 70] := by
  decide

/-- C6, as stated, fails: two different uploads named `report.pdf`, both with `toType=docx`
and both handled at the clock reading 1700000000000, are given the same `outputPath`. -/
theorem same_clock_same_output_path :
    samplePdf ≠ samplePdfAgain ∧
    (convert (sampleEnv (toolWrites (outputPath 1700000000000 "docx") [80, 75])
        (fun _ => none) none) ⟨Field.str "docx", some samplePdf⟩
        (withUpload samplePdf [37, 80, 68, 70] sampleState)).res
      = some (Response.download (join CONVERT_DIR "converted_1700000000000.docx")
          "converted_report.pdf.docx") ∧
    (convert (sampleEnv (toolWrites (outputPath 1700000000000 "docx") [80, 75])
        (fun _ => none) none) ⟨Field.str "docx", some samplePdfAgain⟩
        (withUpload samplePdfAgain [37, 80, 68, 70, 45] sampleState)).res
      = some (Response.download (join CONVERT_DIR "converted_1700000000000.docx")
          "converted_report.pdf.docx") := by
  decide

/-- C6, amended: two jobs are given the same `outputPath` exactly when they read the same
`Date.now()` value and have the same output extension; jobs that differ in the clock reading
or in the target type get distinct paths. -/
theorem outputPath_eq_iff (t1 t2 : Nat) (ty1 ty2 : String) :
    outputPath t1 ty1 = outputPath t2 ty2 ↔ t1 = t2 ∧ outputExt ty1 = outputExt ty2 := by
  constructor
  · exact outputPath_inj t1 t2 ty1 ty2
  · rintro ⟨rfl, h⟩
    simp [outputPath, outputFileName, h]

/-- C10: for `toType=pdf`, an upload stored under a multer name and a subprocess that exits
without error.  If the converter left a file with contents `c` under its own name
(`CONVERT_DIR/<basename of the upload without extension>.pdf`), then after the handler
`outputPath` holds `c`, the converter's name is gone, one record is saved and the file is
sent from `outputPath`.  If neither that name nor `outputPath` holds a file, the answer is
500 `Output file not found` and nothing is saved. -/
theorem pdf_output_located_and_renamed (e : Env) (file : UploadedFile) (s : State)
    (hhex : isHexName file.filename = true)
    (hok : (jobExec e file "pdf" s).err = none) :
    (∀ c, (jobExec e file "pdf" s).fs (loOut file.path) = some c →
      (convert e ⟨Field.str "pdf", some file⟩ s).fs (outputPath e.now "pdf") = some c ∧
      (convert e ⟨Field.str "pdf", some file⟩ s).fs (loOut file.path) = none ∧
      (convert e ⟨Field.str "pdf", some file⟩ s).saves
        = s.saves ++ [newRecord e file "pdf" (outputPath e.now "pdf")] ∧
      (convert e ⟨Field.str "pdf", some file⟩ s).res
        = some (Response.download (outputPath e.now "pdf")
            ("converted_" ++ file.originalname ++ "." ++ outputExt "pdf"))) ∧
    ((jobExec e file "pdf" s).fs (loOut file.path) = none →
      (jobExec e file "pdf" s).fs (outputPath e.now "pdf") = none →
      (convert e ⟨Field.str "pdf", some file⟩ s).res
        = some (Response.json 500 [("error", "Output file not found")]) ∧
      (convert e ⟨Field.str "pdf", some file⟩ s).saves = s.saves) := by
  have hscript : "pdf" = "docx" → existsSync s.fs CONVERT_SCRIPT = true := by
    intro h; exact absurd h (by decide)
  rw [convert_valid e file "pdf" s (Or.inl rfl)]
  constructor
  · intro c hc
    have hout : existsSync (jobExec e file "pdf" s).fs (outputPath e.now "pdf") = true ∨
        ("pdf" = "pdf" ∧ existsSync (jobExec e file "pdf" s).fs (loOut file.path) = true) :=
      Or.inr ⟨rfl, by simp [existsSync, hc]⟩
    obtain ⟨fs1, hpdf, -, hfs, hsaves, -, -, -, hres⟩ :=
      runJob_success e file "pdf" s hscript hok hout
    obtain ⟨h1, h2⟩ := hpdf rfl c hc
    rw [hfs]
    exact ⟨h1, h2 (loOut_ne_outputPath file hhex e.now "pdf"), hsaves, hres⟩
  · intro hlo hout
    obtain ⟨h1, h2, -⟩ := runJob_output_missing e file "pdf" s hscript hok hout (fun _ => hlo)
    exact ⟨h1, h2⟩

/-- Witness for C10: a Word document; the converter writes the PDF under the stored name of
the upload followed by `.pdf`. -/
theorem pdf_output_located_and_renamed_witness :
    (convert (sampleEnv (toolWrites (loOut sampleDocx.path) [37, 80, 68, 70])
        (fun _ => none) none) ⟨Field.str "pdf", some sampleDocx⟩
        (withUpload sampleDocx [80, 75] sampleState)).fs (outputPath 1700000000000 "pdf")
      = some [37, 80, 68, 70] ∧
    (convert (sampleEnv (toolWrites (loOut sampleDocx.path) [37, 80, 68, 70])
        (fun _ => none) none) ⟨Field.str "pdf", some sampleDocx⟩
        (withUpload sampleDocx [80, 75] sampleState)).fs (loOut sampleDocx.path) = none :=
  have h := (pdf_output_located_and_renamed
    (sampleEnv (toolWrites (loOut sampleDocx.path) [37, 80, 68, 70]) (fun _ => none) none)
    sampleDocx (withUpload sampleDocx [80, 75] sampleState) (by decide) (by decide)).1
      [37, 80, 68, 70] (by decide)
  ⟨h.1, h.2.1⟩

end PdfToDoc
